import Mathlib

/-!
Shallow embedding of the client-side IM SDK core (openim-sdk-core, Rust) and
proofs about its conversation syncer, friend syncer, message store, push
dispatcher and outbound send path.  Each definition mirrors the Rust source
file and function named in its doc comment; machine integers (i32/i64/u64)
are modelled as `Int`/`Nat` with explicit saturation where the source uses
saturating arithmetic.
-/

set_option maxHeartbeats 1000000

/-- `i64::saturating_sub` from Rust, on the mathematical integers with the
i64 bounds made explicit. -/
def i64_saturating_sub (a b : Int) : Int :=
  max (min (a - b) (2 ^ 63 - 1)) (-(2 ^ 63))

/-- Two's-complement truncation to i32, modelling Rust's `as i32` cast. -/
def i32_wrap (x : Int) : Int :=
  (x + 2 ^ 31) % 2 ^ 32 - 2 ^ 31

/-- The `\x7b` character, kept as a named constant. -/
def jsonLBrace : Char := Char.ofNat 123

/-- The `\x7d` character, kept as a named constant. -/
def jsonRBrace : Char := Char.ofNat 125

/-- The double-quote character, kept as a named constant. -/
def jsonDQuote : Char := Char.ofNat 34

/-- Drop leading JSON whitespace. -/
def skipWs : List Char → List Char
  | c :: rest =>
    if c = ' ' ∨ c = '\n' ∨ c = '\t' ∨ c = '\r' then skipWs rest else c :: rest
  | [] => []

/-- Read the body of a JSON string literal up to the closing quote;
escape sequences are rejected (none of the payloads built by this client
contain them). -/
def parseJsonStringAux : List Char → List Char → Option (String × List Char)
  | acc, c :: rest =>
    if c = jsonDQuote then some (String.mk acc.reverse, rest)
    else if c = '\\' then none
    else parseJsonStringAux (c :: acc) rest
  | _, [] => none

/-- Parse a JSON string literal (with leading whitespace allowed). -/
def parseJsonString (cs : List Char) : Option (String × List Char) :=
  match skipWs cs with
  | c :: rest => if c = jsonDQuote then parseJsonStringAux [] rest else none
  | [] => none

/-- Parse the members of a flat JSON object whose values are all strings. -/
def parseJsonMembersAux : Nat → List Char → List (String × String) →
    Option (List (String × String))
  | 0, _, _ => none
  | fuel + 1, cs, acc =>
    match parseJsonString cs with
    | none => none
    | some (k, rest) =>
      match skipWs rest with
      | ':' :: rest2 =>
        match parseJsonString rest2 with
        | none => none
        | some (v, rest3) =>
          match skipWs rest3 with
          | c :: rest4 =>
            if c = ',' then parseJsonMembersAux fuel rest4 ((k, v) :: acc)
            else if c = jsonRBrace then
              if (skipWs rest4).isEmpty then some ((k, v) :: acc).reverse else none
            else none
          | [] => none
      | _ => none

/-- Modelled from the spec: JSON object parsing as done by the external
`serde_json` crate (not part of this repository), restricted to flat objects
whose values are strings without escape sequences — the shape of every
content payload this development evaluates.  Anything else parses to
`none`, matching `serde_json` returning an error or a non-string field. -/
def parseFlatJsonObject (s : String) : Option (List (String × String)) :=
  match skipWs s.data with
  | c :: rest =>
    if c = jsonLBrace then
      match skipWs rest with
      | c2 :: rest2 =>
        if c2 = jsonRBrace then
          if (skipWs rest2).isEmpty then some [] else none
        else parseJsonMembersAux (rest.length + 1) (c2 :: rest2) []
      | [] => none
    else none
  | [] => none

/-- Modelled from the spec: extraction of a string field from a JSON value,
as in `serde_json` `json.get(key).and_then(v.as_str())`. -/
def jsonStringField (key : String) (s : String) : Option String :=
  (parseFlatJsonObject s).bind fun kvs =>
    (kvs.find? (fun p => p.1 = key)).map (·.2)

namespace constant

/-! Modelled from the spec: numeric message/content-type constants of the
external `openim_protocol` crate (a dependency, not part of this
repository).  The spec names them symbolically; the exact numbers are the
standard OpenIM protocol values, and no theorem below depends on the
particular numbers — only on the distinctions the source code makes. -/

def CONTENT_TYPE_BEGIN : Int := 100

def TEXT : Int := 101

def PICTURE : Int := 102

def VOICE : Int := 103

def VIDEO : Int := 104

def FILE : Int := 105

def AT_TEXT : Int := 106

def MERGER : Int := 107

def CARD : Int := 108

def LOCATION : Int := 109

def CUSTOM : Int := 110

def REVOKE : Int := 111

def TYPING : Int := 113

def REACTION_MESSAGE_MODIFIER : Int := 121

def REACTION_MESSAGE_DELETER : Int := 122

def COMMON : Int := 200

def GROUP_MSG : Int := 201

def SIGNAL_MSG : Int := 202

def CUSTOM_NOTIFICATION : Int := 203

def NOTIFICATION_BEGIN : Int := 1000

def FRIEND_APPLICATION_APPROVED_NOTIFICATION : Int := 1201

def FRIENDS_INFO_UPDATE_NOTIFICATION : Int := 1210

def CLEAR_CONVERSATION_NOTIFICATION : Int := 1601

def CONVERSATION_DELETE_NOTIFICATION : Int := 1602

def CONVERSATION_CHANGE_NOTIFICATION : Int := 1700

def CONVERSATION_UNREAD_NOTIFICATION : Int := 1701

def CONVERSATION_PRIVATE_CHAT_NOTIFICATION : Int := 1702

def HAS_READ_RECEIPT : Int := 2200

def NOTIFICATION_END : Int := 5000

def MSG_STATUS_SEND_SUCCESS : Int := 2

end constant

namespace msg_type

/-! WebSocket request identifiers, from `src/im/types.rs` (`mod msg_type`). -/

def WS_GET_NEWEST_SEQ : Int := 1001

def WS_SEND_MSG : Int := 1003

def WS_PUSH_MSG : Int := 2001

def WS_KICK_ONLINE_MSG : Int := 2002

def WS_LOGOUT_MSG : Int := 2003

def WS_SEND_MSG_NOT_OSS : Int := 3001

end msg_type

/-- `sdkws::MsgData`, the protobuf message payload, as used by the client
(`content` bytes modelled as a string; the `options` map as an association
list). -/
structure MsgData where
  send_id : String
  recv_id : String
  group_id : String
  client_msg_id : String
  server_msg_id : String
  sender_platform_id : Int
  sender_nickname : String
  sender_face_url : String
  session_type : Int
  msg_from : Int
  content_type : Int
  content : String
  seq : Int
  send_time : Int
  create_time : Int
  status : Int
  is_read : Bool
  options : List (String × Bool)
  at_user_id_list : List String
  attached_info : String
  ex : String
  deriving DecidableEq, Repr

/-- `HashMap::get` on the options map. -/
def optionsGet (opts : List (String × Bool)) (k : String) : Option Bool :=
  (opts.find? (fun p => p.1 = k)).map (·.2)

/-- `LocalConversation` from `src/im/types.rs`. -/
structure LocalConversation where
  conversation_id : String
  conversation_type : Int
  user_id : String
  group_id : String
  show_name : String
  face_url : String
  latest_msg : String
  latest_msg_send_time : Int
  unread_count : Int
  recv_msg_opt : Int
  is_pinned : Bool
  is_private_chat : Bool
  burn_duration : Int
  group_at_type : Int
  is_not_in_group : Bool
  update_unread_count_time : Int
  attached_info : String
  ex : String
  draft_text : String
  draft_text_time : Int
  max_seq : Int
  min_seq : Int
  is_msg_destruct : Bool
  msg_destruct_time : Int
  deriving DecidableEq, Repr

/-- `LocalVersionSync` from `src/im/conversation/models.rs`
(`version` is a `u64`, modelled as `Nat`). -/
structure LocalVersionSync where
  table_name : String
  entity_id : String
  version : Nat
  version_id : String
  deriving DecidableEq, Repr

/-- The `local_conversations` table: its rows, keyed by the primary-key
column `conversation_id`. -/
abbrev ConvStore := List LocalConversation

/-- `ConversationDao::get_conversation_by_id`. -/
def getConversationById (store : ConvStore) (cid : String) :
    Option LocalConversation :=
  store.find? (fun c => c.conversation_id = cid)

/-- `ConversationDao::upsert_conversation`: replace the row with the same
`conversation_id`, or append a new row. -/
def upsertConversation (store : ConvStore) (c : LocalConversation) : ConvStore :=
  if store.any (fun p => p.conversation_id = c.conversation_id) then
    store.map (fun p => if p.conversation_id = c.conversation_id then c else p)
  else
    store ++ [c]

/-- `ConversationDao::delete_conversation`. -/
def deleteConversationRow (store : ConvStore) (cid : String) : ConvStore :=
  store.filter (fun c => c.conversation_id ≠ cid)

/-- `ConversationDao::get_total_unread_count`:
`SELECT SUM(unread_count) FROM local_conversations`, cast `as i32`. -/
def get_total_unread_count (store : ConvStore) : Int :=
  i32_wrap ((store.map (·.unread_count)).foldl (· + ·) 0)

/-- `ConversationSyncer::build_latest_msg_summary`
(`src/im/conversation/service.rs`). -/
def build_latest_msg_summary (msg : MsgData) : String :=
  if msg.content_type = constant.TEXT then
    match jsonStringField "content" msg.content with
    | some text =>
      if text ≠ "" then text
      else if msg.content ≠ "" then msg.content
      else "[文本]"
    | none =>
      if msg.content ≠ "" then msg.content
      else "[文本]"
  else if msg.content_type = constant.PICTURE then "[图片]"
  else if msg.content_type = constant.VOICE then "[语音]"
  else if msg.content_type = constant.VIDEO then "[视频]"
  else if msg.content_type = constant.FILE then "[文件]"
  else if msg.content_type = constant.AT_TEXT then "[@消息]"
  else if msg.content_type = constant.LOCATION then "[位置]"
  else if msg.content_type = constant.MERGER then "[聊天记录]"
  else if msg.content_type = constant.CARD then "[名片]"
  else if msg.content_type = 1201 ∨ msg.content_type = 1203 ∨ msg.content_type = 1204 then
    "[好友通知]"
  else if msg.content_type = 1501 ∨ msg.content_type = 1504 ∨ msg.content_type = 1508 then
    "[群通知]"
  else if msg.content_type = 2200 then "[已读回执]"
  else "[新消息]"

/-- The fresh `LocalConversation` built by `on_new_message` when no row
exists yet (`src/im/conversation/service.rs`, the `else` arm of the
`existing_conv` match). -/
def default_new_conversation (conversation_id : String) (msg : MsgData) :
    LocalConversation where
  conversation_id := conversation_id
  conversation_type := msg.session_type
  user_id := msg.send_id
  group_id := msg.group_id
  show_name := ""
  face_url := ""
  latest_msg := ""
  latest_msg_send_time := 0
  unread_count := 0
  recv_msg_opt := 0
  is_pinned := false
  is_private_chat := false
  burn_duration := 0
  group_at_type := 0
  is_not_in_group := false
  update_unread_count_time := 0
  attached_info := ""
  ex := ""
  draft_text := ""
  draft_text_time := 0
  max_seq := msg.seq
  min_seq := msg.seq
  is_msg_destruct := false
  msg_destruct_time := 0

/-- The conversation row written by `ConversationSyncer::on_new_message`
after its field updates (summary, `latest_msg_send_time`, `max_seq`, unread
accounting), factored out of the stateful body. -/
def on_new_message_conv (user_id : String) (existing : Option LocalConversation)
    (conversation_id : String) (msg : MsgData) (is_notification : Bool) :
    LocalConversation :=
  let conv := existing.getD (default_new_conversation conversation_id msg)
  let latest := build_latest_msg_summary msg
  let send_time := if msg.send_time > 0 then msg.send_time else msg.create_time
  let conv := { conv with
    latest_msg := latest
    latest_msg_send_time := send_time
    max_seq := max conv.max_seq msg.seq }
  let should_count_unread :=
    if msg.send_id = user_id ∨ is_notification then false
    else (optionsGet msg.options "unreadCount").getD true
  if should_count_unread ∧ msg.seq > i64_saturating_sub conv.max_seq 1 then
    { conv with unread_count := conv.unread_count + 1 }
  else conv

/-- Listener callback invocations and triggered side effects, recorded as a
trace. -/
inductive Event where
  | on_new_conversation (convs : List LocalConversation)
  | on_conversation_changed (convs : List LocalConversation)
  | on_total_unread_message_count_changed (total : Int)
  | trigger_incr_sync_conversations
  | on_new_recv_message_revoked (client_msg_id revoker_id : String)
      (revoke_time seq : Int) (conversation_id : String)
  | on_recv_c2c_read_receipt (send_id content : String)
      (session_type read_time : Int)
  | on_recv_typing_status (conversation_id send_id msg_tip : String)
  | on_recv_new_message (msg : MsgData)
  | friend_sync_triggered
  | on_kicked_offline
  deriving DecidableEq, Repr

/-- The notification content types for which `on_new_message` routes to an
incremental conversation sync instead of mutating the row locally. -/
def conversation_notification_types : List Int :=
  [constant.CONVERSATION_CHANGE_NOTIFICATION,
   constant.CONVERSATION_PRIVATE_CHAT_NOTIFICATION,
   constant.CLEAR_CONVERSATION_NOTIFICATION,
   constant.CONVERSATION_UNREAD_NOTIFICATION,
   constant.CONVERSATION_DELETE_NOTIFICATION,
   constant.HAS_READ_RECEIPT]

/-- `ConversationSyncer::on_new_message`
(`src/im/conversation/service.rs:219`).  The notification-routing arm
triggers an incremental sync (recorded as an event; the sync itself is a
separate network-driven pass) and leaves the local store untouched, exactly
as the source's early `return`. -/
def on_new_message (user_id : String) (store : ConvStore)
    (conversation_id : String) (msg : MsgData) (is_notification : Bool) :
    ConvStore × List Event :=
  if is_notification ∧ msg.content_type ∈ conversation_notification_types then
    (store, [Event.trigger_incr_sync_conversations])
  else
    let existing := getConversationById store conversation_id
    let is_new := existing.isNone
    let conv := on_new_message_conv user_id existing conversation_id msg is_notification
    let store1 := upsertConversation store conv
    let ev1 :=
      if is_new then Event.on_new_conversation [conv]
      else Event.on_conversation_changed [conv]
    (store1, [ev1, Event.on_total_unread_message_count_changed
      (get_total_unread_count store1)])

/-- The dispatcher state owned by `OpenIMClient`: the received-msg-id guard
set (`received_msg_ids`, a `HashSet<String>` modelled as a list-set) and the
conversation store mutated through the conversation syncer. -/
structure ClientState where
  received_msg_ids : List String
  conv_store : ConvStore
  deriving DecidableEq, Repr

/-- `OpenIMClient::is_duplicate_message` (`src/im/client.rs:978`): inserts
the id into the guard set and reports whether it was already present.
Returns the updated set together with the duplicate flag. -/
def is_duplicate_message (received : List String) (msg_id : String) :
    Bool × List String :=
  if received.contains msg_id then (true, received)
  else (false, msg_id :: received)

/-- `OpenIMClient::handle_single_message` (`src/im/client.rs:989`): content
type dispatch of a single pushed message, returning the handled flag and the
listener callbacks it spawns. -/
def handle_single_message (conv_id : String) (msg : MsgData)
    (_is_notification : Bool) : Bool × List Event :=
  if msg.content_type = constant.REVOKE then
    (true, [Event.on_new_recv_message_revoked msg.client_msg_id msg.send_id
      msg.send_time msg.seq conv_id])
  else if msg.content_type = constant.HAS_READ_RECEIPT then
    (true, [Event.on_recv_c2c_read_receipt msg.send_id msg.content
      msg.session_type msg.send_time])
  else if msg.content_type = constant.REACTION_MESSAGE_MODIFIER ∨
      msg.content_type = constant.REACTION_MESSAGE_DELETER then
    (true, [])
  else if msg.content_type = constant.TYPING then
    (true, [Event.on_recv_typing_status conv_id msg.send_id
      ((jsonStringField "msgTip" msg.content).getD "")])
  else if constant.CONTENT_TYPE_BEGIN ≤ msg.content_type ∧
      msg.content_type < constant.NOTIFICATION_BEGIN ∧
      msg.content_type ≠ constant.REVOKE ∧
      msg.content_type ≠ constant.HAS_READ_RECEIPT ∧
      msg.content_type ≠ constant.REACTION_MESSAGE_MODIFIER ∧
      msg.content_type ≠ constant.REACTION_MESSAGE_DELETER ∧
      msg.content_type ≠ constant.TYPING then
    (true, [Event.on_recv_new_message msg])
  else if msg.content_type = constant.COMMON ∨
      msg.content_type = constant.GROUP_MSG ∨
      msg.content_type = constant.SIGNAL_MSG ∨
      msg.content_type = constant.CUSTOM_NOTIFICATION then
    (true, [Event.on_recv_new_message msg])
  else if constant.NOTIFICATION_BEGIN ≤ msg.content_type ∧
      msg.content_type ≤ constant.NOTIFICATION_END ∧
      msg.content_type ≠ constant.HAS_READ_RECEIPT then
    (true, [Event.on_recv_new_message msg])
  else
    (false, [])

/-- The body of `OpenIMClient::handle_push_message`'s loop over the regular
`msgs` map, for one message: dedup gate, content-type dispatch, and the
conversation update side effect for every non-TYPING message. -/
def process_regular_msg (user_id : String) (st : ClientState)
    (conv_id : String) (msg : MsgData) : ClientState × List Event :=
  let (dup, received) := is_duplicate_message st.received_msg_ids msg.client_msg_id
  if dup then (st, [])
  else
    let st := { st with received_msg_ids := received }
    let (_handled, evs1) := handle_single_message conv_id msg false
    if msg.content_type ≠ constant.TYPING then
      let (store1, evs2) := on_new_message user_id st.conv_store conv_id msg false
      ({ st with conv_store := store1 }, evs1 ++ evs2)
    else
      (st, evs1)

/-- The body of `OpenIMClient::handle_push_message`'s loop over the
`notification_msgs` map, for one message: like the regular loop, plus the
friend-sync trigger for content types in the friend-relation notification
range. -/
def process_notification_msg (user_id : String) (st : ClientState)
    (conv_id : String) (msg : MsgData) : ClientState × List Event :=
  let (dup, received) := is_duplicate_message st.received_msg_ids msg.client_msg_id
  if dup then (st, [])
  else
    let st := { st with received_msg_ids := received }
    let (_handled, evs1) := handle_single_message conv_id msg true
    let evsF :=
      if constant.FRIEND_APPLICATION_APPROVED_NOTIFICATION ≤ msg.content_type ∧
          msg.content_type ≤ constant.FRIENDS_INFO_UPDATE_NOTIFICATION then
        [Event.friend_sync_triggered]
      else []
    if msg.content_type ≠ constant.TYPING then
      let (store1, evs2) := on_new_message user_id st.conv_store conv_id msg true
      ({ st with conv_store := store1 }, evs1 ++ evsF ++ evs2)
    else
      (st, evs1 ++ evsF)

/-- `sdkws::PushMessages`: two maps keyed by conversation id (modelled as
association lists in iteration order). -/
structure PushMessages where
  msgs : List (String × List MsgData)
  notification_msgs : List (String × List MsgData)
  deriving DecidableEq, Repr

/-- Process the messages of one conversation entry, in server order. -/
def process_msg_list (user_id : String)
    (step : String → ClientState → String → MsgData → ClientState × List Event)
    (st : ClientState) (conv_id : String) :
    List MsgData → ClientState × List Event
  | [] => (st, [])
  | m :: rest =>
    let (st1, e1) := step user_id st conv_id m
    let (st2, e2) := process_msg_list user_id step st1 conv_id rest
    (st2, e1 ++ e2)

/-- Process all conversation entries of one of the two push maps. -/
def process_msg_map (user_id : String)
    (step : String → ClientState → String → MsgData → ClientState × List Event)
    (st : ClientState) :
    List (String × List MsgData) → ClientState × List Event
  | [] => (st, [])
  | (cid, ms) :: rest =>
    let (st1, e1) := process_msg_list user_id step st cid ms
    let (st2, e2) := process_msg_map user_id step st1 rest
    (st2, e1 ++ e2)

/-- `OpenIMClient::handle_push_message` (`src/im/client.rs:883`): the regular
map first, then the notification map. -/
def handle_push_message (user_id : String) (st : ClientState)
    (pm : PushMessages) : ClientState × List Event :=
  let (st1, e1) :=
    process_msg_map user_id (fun u s c m => process_regular_msg u s c m) st pm.msgs
  let (st2, e2) :=
    process_msg_map user_id (fun u s c m => process_notification_msg u s c m) st1
      pm.notification_msgs
  (st2, e1 ++ e2)

/-- An inbound binary frame after gzip decompression and JSON envelope
parsing (`OpenIMResp`); `push_payload` is the result of decoding `data` as
protobuf `PushMessages` (`none` models empty data or a decode failure). -/
structure InboundResp where
  req_identifier : Int
  err_code : Int
  push_payload : Option PushMessages
  deriving DecidableEq, Repr

/-- `OpenIMClient::handle_binary_message` (`src/im/client.rs:822`): switch on
`reqIdentifier`.  2001 routes to the push handler, 1003 only logs, 2002
surfaces `on_kicked_offline`, anything else is logged and ignored. -/
def handle_binary_message (user_id : String) (st : ClientState)
    (resp : InboundResp) : ClientState × List Event :=
  if resp.req_identifier = msg_type.WS_PUSH_MSG then
    match resp.push_payload with
    | some pm => handle_push_message user_id st pm
    | none => (st, [])
  else if resp.req_identifier = msg_type.WS_SEND_MSG then
    (st, [])
  else if resp.req_identifier = msg_type.WS_KICK_ONLINE_MSG then
    (st, [Event.on_kicked_offline])
  else
    (st, [])

/-- One WebSocket frame as seen by `handle_messages` (`err` models a
transport read error). -/
inductive Frame where
  | text (s : String)
  | binary (resp : InboundResp)
  | ping
  | pong
  | close
  | err
  deriving DecidableEq, Repr

/-- `OpenIMClient::handle_messages` (`src/im/client.rs:794`): the dispatcher
loop over inbound frames.  Text, ping and pong frames are consumed without
effect; binary frames go to `handle_binary_message`; a close frame or a
transport error breaks the loop. -/
def handle_messages (user_id : String) :
    ClientState → List Frame → ClientState × List Event
  | st, [] => (st, [])
  | st, Frame.close :: _ => (st, [])
  | st, Frame.err :: _ => (st, [])
  | st, Frame.binary resp :: rest =>
    let (st1, e1) := handle_binary_message user_id st resp
    let (st2, e2) := handle_messages user_id st1 rest
    (st2, e1 ++ e2)
  | st, Frame.text _ :: rest => handle_messages user_id st rest
  | st, Frame.ping :: rest => handle_messages user_id st rest
  | st, Frame.pong :: rest => handle_messages user_id st rest

/-- `MessageStore::table_name` (`src/im/message/dao.rs:34`): sanitize the
conversation id and prefix `msg_`. -/
def message_table_name (conversation_id : String) : String :=
  "msg_" ++ String.mk (conversation_id.data.map (fun c => if c.isAlphanum then c else '_'))

/-- The columns created by `MessageStore::ensure_table`
(`src/im/message/dao.rs:43`), in schema order. -/
def ensure_table_columns : List String :=
  ["client_msg_id", "server_msg_id", "send_id", "recv_id", "sender_platform_id",
   "sender_nickname", "sender_face_url", "session_type", "msg_from", "content_type",
   "content", "is_read", "status", "seq", "send_time", "create_time",
   "attached_info", "ex", "local_ex"]

/-- The columns named by the INSERT statement in `MessageStore::insert_message`
(`src/im/message/dao.rs:88`), in statement order. -/
def insert_message_columns : List String :=
  ["client_msg_id", "server_msg_id", "send_id", "recv_id", "sender_platform_id",
   "sender_nickname", "sender_face_url", "session_type", "msg_from", "content_type",
   "content", "is_read", "status", "seq", "send_time", "create_time",
   "attached_info", "ex", "local_ex", "group_id"]

/-- The number of `?` placeholders in the VALUES list of the same INSERT
statement (`src/im/message/dao.rs:94`). -/
def insert_message_placeholder_count : Nat := 19

/-- The number of `.bind(..)` calls issued by `MessageStore::insert_message`
(`src/im/message/dao.rs:99-118`). -/
def insert_message_bind_count : Nat := 20

/-- Modelled from the spec: SQLite statement preparation (SQLite is an
external system).  An INSERT statement is accepted only if every column it
names exists in the table and the number of VALUES placeholders matches the
number of named columns; otherwise preparation fails and the call returns an
error. -/
def sqlite_insert_accepted (table_columns ins_columns : List String)
    (placeholder_count : Nat) : Bool :=
  ins_columns.all (table_columns.contains ·) &&
    ins_columns.length == placeholder_count

/-- `LocalChatLog` from `src/im/message/models.rs`. -/
structure LocalChatLog where
  conversation_id : String
  client_msg_id : String
  server_msg_id : String
  send_id : String
  recv_id : String
  sender_platform_id : Int
  sender_nickname : String
  sender_face_url : String
  session_type : Int
  msg_from : Int
  content_type : Int
  content : String
  is_read : Bool
  status : Int
  seq : Int
  send_time : Int
  create_time : Int
  attached_info : String
  ex : String
  local_ex : String
  group_id : String
  deriving DecidableEq, Repr

/-- The body of the HTTP POST issued to `/msg/revoke_msg`. -/
structure RevokeRequest where
  conversation_id : String
  seq : Int
  user_id : String
  deriving DecidableEq, Repr

/-- `OpenIMClient::revoke_message` (`src/im/client.rs:1217`) up to the HTTP
call: `local_msg` is the result of the local
`get_by_client_msg_id(conversation_id, client_msg_id)` lookup; an `ok`
result is the request POSTed to the revoke endpoint, and every `error`
result is returned before any HTTP request is issued. -/
def revoke_message (user_id : String) (local_msg : Option LocalChatLog)
    (conversation_id client_msg_id : String) : Except String RevokeRequest :=
  match local_msg with
  | none => Except.error ("消息不存在或未同步: clientMsgID=" ++ client_msg_id)
  | some msg =>
    if msg.seq = 0 then
      Except.error ("消息尚未同步到服务器，无法撤回: clientMsgID=" ++ client_msg_id)
    else if msg.status ≠ constant.MSG_STATUS_SEND_SUCCESS then
      Except.error "只有发送成功的消息才能撤回"
    else
      Except.ok ⟨conversation_id, msg.seq, user_id⟩

/-- `generate_msg_id` (`src/im/serialization.rs:43`): the login user id
concatenated with the nanosecond timestamp. -/
def generate_msg_id (user_id : String) (nanos : Nat) : String :=
  user_id ++ toString nanos

/-- `HashMap::insert` on the options map. -/
def optionsInsert (m : List (String × Bool)) (k : String) (v : Bool) :
    List (String × Bool) :=
  if m.any (fun p => p.1 = k) then
    m.map (fun p => if p.1 = k then (k, v) else p)
  else m ++ [(k, v)]

/-- `OpenIMClient::build_options` (`src/im/client.rs:772`). -/
def build_options (is_online_only : Bool)
    (override_map : Option (List (String × Bool))) : List (String × Bool) :=
  let options : List (String × Bool) :=
    [("history", true), ("persistent", true), ("senderSync", true),
     ("conversationUpdate", true), ("senderConversationUpdate", true),
     ("unreadCount", !is_online_only), ("offlinePush", !is_online_only)]
  match override_map with
  | some extra => extra.foldl (fun m p => optionsInsert m p.1 p.2) options
  | none => options

/-- `MsgStruct` from `src/im/message/types.rs`, restricted to the scalar
fields the send path reads (the element payload fields — text/picture/...
elems — are carried as raw data inside `content` and are never read by
`send_message_internal`). -/
structure MsgStruct where
  client_msg_id : Option String
  server_msg_id : Option String
  create_time : Int
  send_time : Int
  session_type : Int
  send_id : Option String
  recv_id : Option String
  msg_from : Int
  content_type : Int
  sender_platform_id : Int
  sender_nickname : Option String
  sender_face_url : Option String
  group_id : Option String
  content : Option String
  seq : Int
  is_read : Bool
  status : Int
  attached_info : Option String
  ex : Option String
  deriving DecidableEq, Repr

/-- The `MsgData` constructed by `OpenIMClient::send_rich_message`
(`src/im/client.rs:602`): `now` is `chrono::Utc::now().timestamp_millis()`
and `nanos` the nanosecond timestamp consumed by `generate_msg_id`. -/
def send_rich_message_msg_data (user_id : String) (platform_id : Int)
    (recv_id : String) (session_type content_type : Int) (content : String)
    (is_online_only : Bool) (options_override : Option (List (String × Bool)))
    (now : Int) (nanos : Nat) : MsgData where
  send_id := user_id
  recv_id := recv_id
  group_id := if session_type = 2 then recv_id else ""
  client_msg_id := generate_msg_id user_id nanos
  server_msg_id := ""
  sender_platform_id := platform_id
  sender_nickname := ""
  sender_face_url := ""
  session_type := session_type
  msg_from := 100
  content_type := content_type
  content := content
  seq := 0
  send_time := 0
  create_time := now
  status := 1
  is_read := false
  options := build_options is_online_only options_override
  at_user_id_list := []
  attached_info := ""
  ex := ""

/-- The `MsgData` constructed by `OpenIMClient::send_message_internal`
(`src/im/client.rs:671`). -/
def send_message_internal_msg_data (user_id : String) (platform_id : Int)
    (recv_id group_id : String) (message : MsgStruct)
    (is_online_only : Bool) (options_override : Option (List (String × Bool)))
    (now : Int) (nanos : Nat) : MsgData where
  send_id := user_id
  recv_id := recv_id
  group_id := group_id
  client_msg_id := (message.client_msg_id).getD (generate_msg_id user_id nanos)
  server_msg_id := (message.server_msg_id).getD ""
  sender_platform_id := platform_id
  sender_nickname := (message.sender_nickname).getD ""
  sender_face_url := (message.sender_face_url).getD ""
  session_type := if group_id ≠ "" then 2 else 1
  msg_from := message.msg_from
  content_type := message.content_type
  content := (message.content).getD ""
  seq := message.seq
  send_time := if message.send_time > 0 then message.send_time else now
  create_time := if message.create_time > 0 then message.create_time else now
  status := message.status
  is_read := message.is_read
  options := build_options is_online_only options_override
  at_user_id_list := []
  attached_info := (message.attached_info).getD ""
  ex := (message.ex).getD ""

/-- The version row persisted by `incr_sync_conversations` on its
no-version-row, ID-sets-equal path (`src/im/conversation/service.rs:756`):
a hard-coded version 1 together with a freshly generated v4 UUID, regardless
of any version information held by the server. -/
def no_version_path_version_row (user_id fresh_uuid : String) :
    LocalVersionSync where
  table_name := "local_conversations"
  entity_id := user_id
  version := 1
  version_id := fresh_uuid

/-- The version row persisted by `ConversationSyncer::full_sync`
(`src/im/conversation/service.rs:953`), used in particular by the
fresh-login (empty local store) full sync. -/
def full_sync_version_row (user_id fresh_uuid : String) : LocalVersionSync where
  table_name := "local_conversations"
  entity_id := user_id
  version := 1
  version_id := fresh_uuid

/-- `LocalFriend` from `src/im/friend/models.rs`. -/
structure LocalFriend where
  owner_user_id : String
  friend_user_id : String
  remark : String
  create_time : Int
  add_source : Int
  operator_user_id : String
  nickname : String
  face_url : String
  ex : String
  attached_info : String
  is_pinned : Bool
  deriving DecidableEq, Repr

/-- The `local_friends` table, modelled as an association list keyed by
`friend_user_id`. -/
abbrev FriendStore := List (String × LocalFriend)

/-- Association-list lookup (the `HashMap::get` of the sync passes). -/
def assocGet {α : Type} (l : List (String × α)) (k : String) : Option α :=
  (l.find? (fun p => p.1 = k)).map (·.2)

/-- `FriendDao::upsert_friend`. -/
def upsertFriend (store : FriendStore) (f : LocalFriend) : FriendStore :=
  if store.any (fun p => p.1 = f.friend_user_id) then
    store.map (fun p => if p.1 = f.friend_user_id then (p.1, f) else p)
  else store ++ [(f.friend_user_id, f)]

/-- `FriendDao::delete_friend`. -/
def deleteFriend (store : FriendStore) (fid : String) : FriendStore :=
  store.filter (fun p => p.1 ≠ fid)

/-- `FriendSyncer::friends_equal` (`src/im/friend/service.rs:229`). -/
def friends_equal (loc srv : LocalFriend) : Bool :=
  loc.remark == srv.remark &&
  loc.add_source == srv.add_source &&
  loc.operator_user_id == srv.operator_user_id &&
  loc.nickname == srv.nickname &&
  loc.face_url == srv.face_url &&
  loc.ex == srv.ex &&
  loc.attached_info == srv.attached_info &&
  loc.is_pinned == srv.is_pinned

/-- Friend listener callbacks, recorded as a trace
(black-list and friend-request entries carried as raw strings). -/
inductive FriendEvent where
  | on_friend_list_changed (friends : List LocalFriend)
  | on_black_list_changed (blacks : List String)
  | on_friend_request_list_changed (requests : List String)
  deriving DecidableEq, Repr

/-- `FriendSyncer::sync_friends` (`src/im/friend/service.rs:145`): upsert
new/changed friends, delete local extras when `is_full`, and fire
`on_friend_list_changed` with the inserted-or-updated friends when there was
at least one insert or update. -/
def sync_friends (store : FriendStore)
    (server_friends local_friends : List LocalFriend) (is_full : Bool) :
    FriendStore × List FriendEvent :=
  let local_map : FriendStore := local_friends.map (fun f => (f.friend_user_id, f))
  let server_map : FriendStore := server_friends.map (fun f => (f.friend_user_id, f))
  let store1 := server_map.foldl (fun st p =>
    match assocGet local_map p.1 with
    | some lf => if ¬ friends_equal lf p.2 then upsertFriend st p.2 else st
    | none => upsertFriend st p.2) store
  let store2 :=
    if is_full then
      local_map.foldl (fun st p =>
        if (assocGet server_map p.1).isNone then deleteFriend st p.1 else st) store1
    else store1
  let insert_count :=
    (server_map.filter (fun p => (assocGet local_map p.1).isNone)).length
  let update_count :=
    (server_map.filter (fun p =>
      match assocGet local_map p.1 with
      | some lf => ¬ friends_equal lf p.2
      | none => false)).length
  let changed :=
    (server_map.filter (fun p =>
      match assocGet local_map p.1 with
      | none => true
      | some lf => ¬ friends_equal lf p.2)).map (·.2)
  let evs :=
    if (insert_count > 0 ∨ update_count > 0) ∧ changed ≠ [] then
      [FriendEvent.on_friend_list_changed changed]
    else []
  (store2, evs)

/-- The incremental friend response
(`get_incremental_friends`, `src/im/friend/api.rs`). -/
structure FriendIncResp where
  version : Nat
  version_id : String
  full : Bool
  delete : List String
  insert : List LocalFriend
  update : List LocalFriend
  deriving DecidableEq, Repr

/-- The server responses observed by one `incr_sync_friends` pass; each
field is the result of the corresponding `FriendApi` call (`Except.error`
models an HTTP/decoding failure of that call). -/
structure FriendSyncEnv where
  full_friend_user_ids : Except Unit (Nat × String × List String)
  incremental_friends : Except Unit FriendIncResp
  all_friends : Except Unit (List LocalFriend)
  black_list : Except Unit (List String)
  friend_requests : Except Unit (List String)
  deriving Repr

/-- Everything one `incr_sync_friends` pass persists and fires: the final
friend store, the version rows saved (in order), and the listener events. -/
structure FriendSyncOutcome where
  store : FriendStore
  saved_versions : List LocalVersionSync
  events : List FriendEvent
  deriving DecidableEq, Repr

/-- Equality of two id lists viewed as sets (`HashSet` comparison in the
source). -/
def list_set_eq (a b : List String) : Bool :=
  a.all (b.contains ·) && b.all (a.contains ·)

/-- `FriendSyncer::incr_sync_friends` (`src/im/friend/service.rs:241`),
with the friend store passed explicitly and the server modelled by `env`.
An `Except.error` result is the pass aborting with an error (the source's
`?` / early `return Err`). -/
def incr_sync_friends (env : FriendSyncEnv) (user_id : String)
    (version_sync : Option LocalVersionSync) (store : FriendStore) :
    Except Unit FriendSyncOutcome :=
  let local_friends := store.map (·.2)
  let local_ids := store.map (·.1)
  -- the `version_sync.is_none()` block
  let pre : Except Unit (Option FriendSyncOutcome × List LocalVersionSync) :=
    if version_sync.isNone then
      match env.full_friend_user_ids with
      | Except.ok (srv_version, srv_version_id, server_ids) =>
        if ¬ list_set_eq server_ids local_ids then
          match env.all_friends with
          | Except.error e => Except.error e
          | Except.ok server_friends =>
            let (store1, evs1) := sync_friends store server_friends local_friends true
            Except.ok (some ⟨store1,
              [⟨"local_friends", user_id, srv_version, srv_version_id⟩], evs1⟩, [])
        else
          if srv_version > 0 ∧ srv_version_id ≠ "" then
            Except.ok (none, [⟨"local_friends", user_id, srv_version, srv_version_id⟩])
          else Except.ok (none, [])
      | Except.error _ => Except.ok (none, [])
    else Except.ok (none, [])
  match pre with
  | Except.error e => Except.error e
  | Except.ok (some outcome, _) => Except.ok outcome
  | Except.ok (none, pre_saved) =>
    let version := (version_sync.map (·.version)).getD 0
    match env.incremental_friends with
    | Except.error e => Except.error e
    | Except.ok resp =>
      let resp_row : List LocalVersionSync :=
        if resp.version_id ≠ "" then
          [⟨"local_friends", user_id,
            (if resp.version > 0 then resp.version else version + 1),
            resp.version_id⟩]
        else []
      if resp.full then
        match env.all_friends with
        | Except.error e => Except.error e
        | Except.ok server_friends =>
          let (store1, evs1) := sync_friends store server_friends local_friends true
          Except.ok ⟨store1, pre_saved ++ resp_row, evs1⟩
      else
        let (store1, evs1) :=
          sync_friends store (resp.insert ++ resp.update) local_friends false
        let store2 := resp.delete.foldl (fun st fid => deleteFriend st fid) store1
        let evsB :=
          match env.black_list with
          | Except.ok bl => [FriendEvent.on_black_list_changed bl]
          | Except.error _ => []
        let evsR :=
          match env.friend_requests with
          | Except.ok rq => [FriendEvent.on_friend_request_list_changed rq]
          | Except.error _ => []
        Except.ok ⟨store2, pre_saved ++ resp_row, evs1 ++ evsB ++ evsR⟩

theorem getConversationById_upsert (store : ConvStore) (c : LocalConversation) :
    getConversationById (upsertConversation store c) c.conversation_id = some c := by
  unfold getConversationById upsertConversation
  induction store with
  | nil => simp
  | cons hd tl ih =>
    by_cases hhd : hd.conversation_id = c.conversation_id
    · simp [List.any_cons, hhd]
    · by_cases htl : tl.any (fun p => p.conversation_id = c.conversation_id) = true
      · simp only [List.any_cons, htl, Bool.or_true, if_true] at ih ⊢
        simp only [List.map_cons, List.find?, hhd, decide_eq_true_eq, if_neg]
        simpa [List.find?, hhd] using ih
      · simp only [List.any_cons, htl, Bool.or_false] at ih ⊢
        simp only [hhd, decide_False, if_false, List.cons_append, List.find?]
        simpa [List.find?, hhd] using ih

theorem conversation_id_on_new_message_conv (user_id cid : String)
    (conv : LocalConversation) (msg : MsgData) (b : Bool) :
    (on_new_message_conv user_id (some conv) cid msg b).conversation_id =
      conv.conversation_id := by
  unfold on_new_message_conv
  split <;> split <;> simp [apply_ite LocalConversation.conversation_id]

/-- A concrete conversation row used by the concrete evaluations below. -/
def sampleConv (cid : String) (max_seq unread latest_time : Int) :
    LocalConversation where
  conversation_id := cid
  conversation_type := 1
  user_id := "peer"
  group_id := ""
  show_name := ""
  face_url := ""
  latest_msg := ""
  latest_msg_send_time := latest_time
  unread_count := unread
  recv_msg_opt := 0
  is_pinned := false
  is_private_chat := false
  burn_duration := 0
  group_at_type := 0
  is_not_in_group := false
  update_unread_count_time := 0
  attached_info := ""
  ex := ""
  draft_text := ""
  draft_text_time := 0
  max_seq := max_seq
  min_seq := 0
  is_msg_destruct := false
  msg_destruct_time := 0

/-- A concrete inbound TEXT message used by the concrete evaluations below
(empty options map, single chat). -/
def sampleTextMsg (send_id client_msg_id : String)
    (seq send_time create_time : Int) : MsgData where
  send_id := send_id
  recv_id := "me"
  group_id := ""
  client_msg_id := client_msg_id
  server_msg_id := ""
  sender_platform_id := 1
  sender_nickname := ""
  sender_face_url := ""
  session_type := 1
  msg_from := 100
  content_type := constant.TEXT
  content := "hello"
  seq := seq
  send_time := send_time
  create_time := create_time
  status := 2
  is_read := false
  options := []
  at_user_id_list := []
  attached_info := ""
  ex := ""

theorem unread_count_on_new_message_conv (user_id cid : String)
    (conv : LocalConversation) (msg : MsgData)
    (hsend : msg.send_id ≠ user_id)
    (hopt : optionsGet msg.options "unreadCount" = none ∨
            optionsGet msg.options "unreadCount" = some true)
    (hseq0 : 0 ≤ msg.seq) (hseq1 : msg.seq < 2 ^ 63) :
    (on_new_message_conv user_id (some conv) cid msg false).unread_count =
      (if conv.max_seq ≤ msg.seq then conv.unread_count + 1
       else conv.unread_count) := by
  have hoptd : (optionsGet msg.options "unreadCount").getD true = true := by
    rcases hopt with h | h <;> simp [h]
  simp only [on_new_message_conv, Option.getD_some]
  simp [hsend, hoptd, apply_ite LocalConversation.unread_count,
    i64_saturating_sub, sup_eq_max]
  split_ifs <;> omega

/-- C1 (amended): for a non-typing inbound push message M handled by
`ConversationSyncer::on_new_message` with `send_id` ≠ the login user,
`is_notification` false and `options["unreadCount"]` absent or true,
hitting an existing conversation, with an i64-representable non-negative
`seq`: the stored row becomes `on_new_message_conv …` and its
`unread_count` increases by exactly 1 iff `M.seq` is greater than **or
equal to** the conversation's stored `max_seq` before processing (not only
when strictly greater), and is unchanged when `M.seq` is strictly below
it. -/
theorem c1_unread_increment_amended (user_id cid : String) (store : ConvStore)
    (conv : LocalConversation) (msg : MsgData)
    (hconv : getConversationById store cid = some conv)
    (hsend : msg.send_id ≠ user_id)
    (hopt : optionsGet msg.options "unreadCount" = none ∨
            optionsGet msg.options "unreadCount" = some true)
    (hseq0 : 0 ≤ msg.seq) (hseq1 : msg.seq < 2 ^ 63) :
    getConversationById (on_new_message user_id store cid msg false).1 cid =
      some (on_new_message_conv user_id (some conv) cid msg false) ∧
    (on_new_message_conv user_id (some conv) cid msg false).unread_count =
      (if conv.max_seq ≤ msg.seq then conv.unread_count + 1
       else conv.unread_count) := by
  constructor
  · have hcid : conv.conversation_id = cid := by
      have h := List.find?_some hconv
      simpa using h
    have h1 : (on_new_message user_id store cid msg false).1 =
        upsertConversation store
          (on_new_message_conv user_id (some conv) cid msg false) := by
      simp [on_new_message, hconv]
    rw [h1]
    have h2 := getConversationById_upsert store
      (on_new_message_conv user_id (some conv) cid msg false)
    rwa [conversation_id_on_new_message_conv, hcid] at h2
  · exact unread_count_on_new_message_conv user_id cid conv msg hsend hopt hseq0 hseq1

/-- Witness for `c1_unread_increment_amended` at a concrete input:
conversation `c1` with `max_seq = 5`, message with `seq = 6 > 5`, so the
unread count goes from 2 to 3. -/
theorem c1_unread_increment_amended_witness :
    getConversationById
        (on_new_message "me" [sampleConv "c1" 5 2 50] "c1"
          (sampleTextMsg "peer" "m1" 6 100 100) false).1 "c1" =
      some (on_new_message_conv "me" (some (sampleConv "c1" 5 2 50)) "c1"
        (sampleTextMsg "peer" "m1" 6 100 100) false) ∧
    (on_new_message_conv "me" (some (sampleConv "c1" 5 2 50)) "c1"
      (sampleTextMsg "peer" "m1" 6 100 100) false).unread_count =
      (if (sampleConv "c1" 5 2 50).max_seq ≤ (sampleTextMsg "peer" "m1" 6 100 100).seq
       then (sampleConv "c1" 5 2 50).unread_count + 1
       else (sampleConv "c1" 5 2 50).unread_count) :=
  c1_unread_increment_amended "me" "c1" [sampleConv "c1" 5 2 50]
    (sampleConv "c1" 5 2 50) (sampleTextMsg "peer" "m1" 6 100 100)
    (by decide) (by decide) (Or.inl (by decide)) (by decide) (by decide)

/-- C1 counterexample: a message whose `seq` equals the stored `max_seq`
(so it is **not** strictly greater) still increments `unread_count` — the
increment guard compares against `max_seq` after it was already raised to
`max(max_seq, seq)`, so equality also passes. -/
theorem c1_counterexample :
    (sampleTextMsg "peer" "m1" 5 100 100).seq ≤ (sampleConv "c1" 5 0 50).max_seq ∧
    getConversationById
        (on_new_message "me" [sampleConv "c1" 5 0 50] "c1"
          (sampleTextMsg "peer" "m1" 5 100 100) false).1 "c1" =
      some (on_new_message_conv "me" (some (sampleConv "c1" 5 0 50)) "c1"
        (sampleTextMsg "peer" "m1" 5 100 100) false) ∧
    (on_new_message_conv "me" (some (sampleConv "c1" 5 0 50)) "c1"
      (sampleTextMsg "peer" "m1" 5 100 100) false).unread_count = 1 ∧
    (sampleConv "c1" 5 0 50).unread_count = 0 := by
  refine ⟨by decide, by decide, by decide, by decide⟩

/-- C4 (amended): on every push-driven conversation update via
`on_new_message` (regular path, `is_notification = false`) the stored row is
the upsert of `on_new_message_conv …`, whose `latest_msg_send_time` is set
to `msg.send_time` when that is positive and to `msg.create_time`
otherwise — not to `max(send_time, create_time)` — and it is overwritten
unconditionally, so it is not monotone across successive push updates. -/
theorem c4_latest_msg_send_time_amended (user_id cid : String)
    (store : ConvStore) (existing : Option LocalConversation) (msg : MsgData) :
    (on_new_message user_id store cid msg false).1 =
      upsertConversation store
        (on_new_message_conv user_id (getConversationById store cid) cid msg false) ∧
    (on_new_message_conv user_id existing cid msg false).latest_msg_send_time =
      (if msg.send_time > 0 then msg.send_time else msg.create_time) := by
  constructor
  · simp [on_new_message]
  · unfold on_new_message_conv
    split <;> split <;>
      simp_all [apply_ite LocalConversation.latest_msg_send_time]

/-- C4 counterexample: a push with `send_time = 5 > 0` and
`create_time = 10` sets `latest_msg_send_time` to 5 — not to
`max(send_time, create_time) = 10` — and this overwrites the previously
stored value 100, so the field decreases (monotonicity fails). -/
theorem c4_counterexample :
    (on_new_message_conv "me" (some (sampleConv "c1" 5 0 100)) "c1"
      (sampleTextMsg "peer" "m2" 6 5 10) false).latest_msg_send_time = 5 ∧
    max (sampleTextMsg "peer" "m2" 6 5 10).send_time
        (sampleTextMsg "peer" "m2" 6 5 10).create_time = 10 ∧
    getConversationById
        (on_new_message "me" [sampleConv "c1" 5 0 100] "c1"
          (sampleTextMsg "peer" "m2" 6 5 10) false).1 "c1" =
      some (on_new_message_conv "me" (some (sampleConv "c1" 5 0 100)) "c1"
        (sampleTextMsg "peer" "m2" 6 5 10) false) ∧
    (sampleConv "c1" 5 0 100).latest_msg_send_time = 100 ∧ (5 : Int) < 100 := by
  refine ⟨by decide, by decide, by decide, by decide, by decide⟩

/-- A concrete inbound TYPING message with a flat `msgTip` JSON payload. -/
def sampleTypingMsg : MsgData :=
  { sampleTextMsg "peer" "t1" 0 100 100 with
      content_type := constant.TYPING
      content := "\x7b\"msgTip\":\"typing\"\x7d" }

/-- C8: for every inbound push message with content type TYPING — in the
regular map or the notification map — the conversation store is untouched
(no row created or modified, `on_new_message` never invoked), and when the
message passes the dedup gate the only callback fired is the typing
callback with the synthesized `(conversationID, sendID, msgTip)` payload. -/
theorem c8_typing_no_conversation_update (user_id conv_id : String)
    (st : ClientState) (msg : MsgData)
    (htyping : msg.content_type = constant.TYPING) :
    (process_regular_msg user_id st conv_id msg).1.conv_store = st.conv_store ∧
    (process_notification_msg user_id st conv_id msg).1.conv_store = st.conv_store ∧
    (st.received_msg_ids.contains msg.client_msg_id = false →
      (process_regular_msg user_id st conv_id msg).2 =
        [Event.on_recv_typing_status conv_id msg.send_id
          ((jsonStringField "msgTip" msg.content).getD "")] ∧
      (process_notification_msg user_id st conv_id msg).2 =
        [Event.on_recv_typing_status conv_id msg.send_id
          ((jsonStringField "msgTip" msg.content).getD "")]) := by
  by_cases hdup : st.received_msg_ids.contains msg.client_msg_id
  · have hmem : msg.client_msg_id ∈ st.received_msg_ids := by simpa using hdup
    refine ⟨?_, ?_, ?_⟩ <;>
      simp [process_regular_msg, process_notification_msg,
        is_duplicate_message, hmem, hdup]
  · have hmem : msg.client_msg_id ∉ st.received_msg_ids := by simpa using hdup
    refine ⟨?_, ?_, fun _ => ⟨?_, ?_⟩⟩ <;>
      simp [process_regular_msg, process_notification_msg,
        is_duplicate_message, hmem, handle_single_message, htyping,
        constant.TYPING, constant.REVOKE, constant.HAS_READ_RECEIPT,
        constant.REACTION_MESSAGE_MODIFIER, constant.REACTION_MESSAGE_DELETER,
        constant.FRIEND_APPLICATION_APPROVED_NOTIFICATION,
        constant.FRIENDS_INFO_UPDATE_NOTIFICATION]

/-- Witness for `c8_typing_no_conversation_update` at a concrete typing
message against an empty client state. -/
theorem c8_typing_witness :
    (process_regular_msg "me" ⟨[], []⟩ "c1" sampleTypingMsg).1.conv_store =
      ([] : ConvStore) ∧
    (process_regular_msg "me" ⟨[], []⟩ "c1" sampleTypingMsg).2 =
      [Event.on_recv_typing_status "c1" "peer" "typing"] :=
  ⟨(c8_typing_no_conversation_update "me" "c1" ⟨[], []⟩ sampleTypingMsg
      (by decide)).1,
   by decide⟩

theorem received_mono_process_regular (u cid : String) (st : ClientState)
    (m : MsgData) :
    st.received_msg_ids ⊆ (process_regular_msg u st cid m).1.received_msg_ids := by
  unfold process_regular_msg is_duplicate_message
  split_ifs <;> simp [List.subset_cons_self]

theorem received_mono_process_notification (u cid : String) (st : ClientState)
    (m : MsgData) :
    st.received_msg_ids ⊆
      (process_notification_msg u st cid m).1.received_msg_ids := by
  unfold process_notification_msg is_duplicate_message
  split_ifs <;> simp [List.subset_cons_self]

theorem received_mono_process_msg_list (u : String)
    (step : String → ClientState → String → MsgData → ClientState × List Event)
    (hstep : ∀ u' st cid m, st.received_msg_ids ⊆ (step u' st cid m).1.received_msg_ids)
    (st : ClientState) (cid : String) (ms : List MsgData) :
    st.received_msg_ids ⊆ (process_msg_list u step st cid ms).1.received_msg_ids := by
  induction ms generalizing st with
  | nil => simp [process_msg_list]
  | cons m rest ih =>
    simp only [process_msg_list]
    exact (hstep u st cid m).trans (ih (step u st cid m).1)

theorem received_mono_process_msg_map (u : String)
    (step : String → ClientState → String → MsgData → ClientState × List Event)
    (hstep : ∀ u' st cid m, st.received_msg_ids ⊆ (step u' st cid m).1.received_msg_ids)
    (st : ClientState) (pairs : List (String × List MsgData)) :
    st.received_msg_ids ⊆ (process_msg_map u step st pairs).1.received_msg_ids := by
  induction pairs generalizing st with
  | nil => simp [process_msg_map]
  | cons p rest ih =>
    simp only [process_msg_map]
    exact (received_mono_process_msg_list u step hstep st p.1 p.2).trans
      (ih (process_msg_list u step st p.1 p.2).1)

theorem received_mono_handle_push (u : String) (st : ClientState)
    (pm : PushMessages) :
    st.received_msg_ids ⊆ (handle_push_message u st pm).1.received_msg_ids := by
  simp only [handle_push_message]
  exact (received_mono_process_msg_map u _
      (fun u' s c m => received_mono_process_regular u' c s m) st pm.msgs).trans
    (received_mono_process_msg_map u _
      (fun u' s c m => received_mono_process_notification u' c s m) _ pm.notification_msgs)

theorem received_mono_handle_binary (u : String) (st : ClientState)
    (resp : InboundResp) :
    st.received_msg_ids ⊆ (handle_binary_message u st resp).1.received_msg_ids := by
  unfold handle_binary_message
  split_ifs
  · cases h : resp.push_payload with
    | none => simp
    | some pm => simpa using received_mono_handle_push u st pm
  · simp
  · simp
  · simp

theorem received_mono_handle_messages (u : String) (st : ClientState)
    (frames : List Frame) :
    st.received_msg_ids ⊆ (handle_messages u st frames).1.received_msg_ids := by
  induction frames generalizing st with
  | nil => simp [handle_messages]
  | cons f rest ih =>
    cases f with
    | close => simp [handle_messages]
    | err => simp [handle_messages]
    | binary resp =>
      simp only [handle_messages]
      exact (received_mono_handle_binary u st resp).trans
        (ih (handle_binary_message u st resp).1)
    | text s => simpa [handle_messages] using ih st
    | ping => simpa [handle_messages] using ih st
    | pong => simpa [handle_messages] using ih st

/-- C10: the received-msg-id guard set never evicts.  Once a
`client_msg_id` is in the guard set, every later message carrying it, in the
regular or the notification map of any push frame, is silently dropped (no
callback, no state change); the id of every processed message enters the
set; and the set only ever grows across the whole dispatcher loop, so the
suppression is global and permanent for the process lifetime. -/
theorem c10_dedup_guard_permanent (user_id conv_id : String)
    (st : ClientState) (msg : MsgData)
    (hdup : msg.client_msg_id ∈ st.received_msg_ids) :
    process_regular_msg user_id st conv_id msg = (st, []) ∧
    process_notification_msg user_id st conv_id msg = (st, []) ∧
    (∀ m : MsgData,
      m.client_msg_id ∈ (process_regular_msg user_id st conv_id m).1.received_msg_ids ∧
      m.client_msg_id ∈ (process_notification_msg user_id st conv_id m).1.received_msg_ids) ∧
    (∀ frames : List Frame,
      msg.client_msg_id ∈ (handle_messages user_id st frames).1.received_msg_ids) := by
  refine ⟨?_, ?_, ?_, ?_⟩
  · simp [process_regular_msg, is_duplicate_message, hdup]
  · simp [process_notification_msg, is_duplicate_message, hdup]
  · intro m
    constructor <;>
    · by_cases hmem : m.client_msg_id ∈ st.received_msg_ids
      · simp only [process_regular_msg, process_notification_msg, is_duplicate_message]
        split_ifs <;> simp_all
      · simp only [process_regular_msg, process_notification_msg, is_duplicate_message]
        split_ifs <;> simp_all
  · intro frames
    exact received_mono_handle_messages user_id st frames hdup

/-- Witness for `c10_dedup_guard_permanent`: a state that has already seen
`"m1"` drops a second message with `client_msg_id = "m1"` without events. -/
theorem c10_dedup_guard_permanent_witness :
    process_regular_msg "me" ⟨["m1"], []⟩ "c1"
        (sampleTextMsg "peer" "m1" 7 100 100) = (⟨["m1"], []⟩, []) ∧
    process_notification_msg "me" ⟨["m1"], []⟩ "c1"
        (sampleTextMsg "peer" "m1" 7 100 100) = (⟨["m1"], []⟩, []) ∧
    (∀ m : MsgData,
      m.client_msg_id ∈
        (process_regular_msg "me" ⟨["m1"], []⟩ "c1" m).1.received_msg_ids ∧
      m.client_msg_id ∈
        (process_notification_msg "me" ⟨["m1"], []⟩ "c1" m).1.received_msg_ids) ∧
    (∀ frames : List Frame,
      "m1" ∈ (handle_messages "me" ⟨["m1"], []⟩ frames).1.received_msg_ids) :=
  c10_dedup_guard_permanent "me" "c1" ⟨["m1"], []⟩
    (sampleTextMsg "peer" "m1" 7 100 100) (by decide)

/-- A concrete kick-offline (2002) frame payload. -/
def kickResp : InboundResp where
  req_identifier := msg_type.WS_KICK_ONLINE_MSG
  err_code := 0
  push_payload := none

/-- A concrete push (2001) frame carrying one regular TEXT message. -/
def pushRespOneMsg : InboundResp where
  req_identifier := msg_type.WS_PUSH_MSG
  err_code := 0
  push_payload := some ⟨[("c1", [sampleTextMsg "peer" "m9" 1 100 100])], []⟩

/-- C6 (amended): a kick-offline (2002) frame surfaces `on_kicked_offline`
and leaves the client state unchanged, but the dispatcher does **not**
stop: the frames after it are processed exactly as they would have been,
and the loop terminates only at a close frame or a transport error. -/
theorem c6_kick_continues_amended (user_id : String) (st : ClientState)
    (resp : InboundResp)
    (hkick : resp.req_identifier = msg_type.WS_KICK_ONLINE_MSG)
    (rest : List Frame) :
    handle_binary_message user_id st resp = (st, [Event.on_kicked_offline]) ∧
    handle_messages user_id st (Frame.binary resp :: rest) =
      ((handle_messages user_id st rest).1,
        Event.on_kicked_offline :: (handle_messages user_id st rest).2) ∧
    handle_messages user_id st (Frame.close :: rest) = (st, []) ∧
    handle_messages user_id st (Frame.err :: rest) = (st, []) := by
  have h1 : handle_binary_message user_id st resp = (st, [Event.on_kicked_offline]) := by
    simp [handle_binary_message, hkick, msg_type.WS_KICK_ONLINE_MSG,
      msg_type.WS_PUSH_MSG, msg_type.WS_SEND_MSG]
  refine ⟨h1, ?_, rfl, rfl⟩
  simp [handle_messages, h1]

/-- Witness for `c6_kick_continues_amended` at the concrete kick frame. -/
theorem c6_kick_continues_amended_witness :
    handle_binary_message "me" ⟨[], []⟩ kickResp =
      (⟨[], []⟩, [Event.on_kicked_offline]) ∧
    handle_messages "me" ⟨[], []⟩ (Frame.binary kickResp :: [Frame.ping]) =
      ((handle_messages "me" ⟨[], []⟩ [Frame.ping]).1,
        Event.on_kicked_offline ::
          (handle_messages "me" ⟨[], []⟩ [Frame.ping]).2) ∧
    handle_messages "me" ⟨[], []⟩ (Frame.close :: [Frame.ping]) = (⟨[], []⟩, []) ∧
    handle_messages "me" ⟨[], []⟩ (Frame.err :: [Frame.ping]) = (⟨[], []⟩, []) :=
  c6_kick_continues_amended "me" ⟨[], []⟩ kickResp (by decide) [Frame.ping]

/-- C6 counterexample: after a 2002 kick frame the next inbound frame is
still dispatched — the push frame that follows delivers its message
callback, so processing does not stop at the kick. -/
theorem c6_counterexample :
    Event.on_kicked_offline ∈
      (handle_messages "me" ⟨[], []⟩
        [Frame.binary kickResp, Frame.binary pushRespOneMsg]).2 ∧
    Event.on_recv_new_message (sampleTextMsg "peer" "m9" 1 100 100) ∈
      (handle_messages "me" ⟨[], []⟩
        [Frame.binary kickResp, Frame.binary pushRespOneMsg]).2 := by
  refine ⟨by decide, by decide⟩

/-- A concrete environment in which the server forces a full friend sync
(`full = true`) while the black-list and friend-request fetches would
succeed. -/
def c5FullEnv : FriendSyncEnv where
  full_friend_user_ids := Except.error ()
  incremental_friends := Except.ok ⟨4, "v4", true, [], [], []⟩
  all_friends := Except.ok []
  black_list := Except.ok ["black-entry"]
  friend_requests := Except.ok ["request-entry"]

/-- C5 counterexample: a friend sync pass that ends in the server-forced
full-sync path returns early with an **empty** event list — the black-list
and friend-apply-list are not fetched and `on_black_list_changed` /
`on_friend_request_list_changed` are not fired, even though both fetches
would have succeeded. -/
theorem c5_counterexample :
    incr_sync_friends c5FullEnv "me" (some ⟨"local_friends", "me", 3, "v3"⟩) [] =
      Except.ok ⟨[], [⟨"local_friends", "me", 4, "v4"⟩], []⟩ ∧
    c5FullEnv.black_list = Except.ok ["black-entry"] ∧
    c5FullEnv.friend_requests = Except.ok ["request-entry"] := by
  refine ⟨rfl, rfl, rfl⟩

/-- C5 (amended): only a pass that completes the **incremental** path (a
version row exists and the server does not force a full sync) refreshes the
black-list and friend-apply-list: when those fetches succeed the event
trace ends with `on_black_list_changed` followed by
`on_friend_request_list_changed`.  Passes ending in a full-sync path return
before the refresh (see the counterexample). -/
theorem c5_black_list_refresh_amended (env : FriendSyncEnv) (user_id : String)
    (vs : LocalVersionSync) (store : FriendStore) (resp : FriendIncResp)
    (bl rq : List String)
    (hinc : env.incremental_friends = Except.ok resp)
    (hfull : resp.full = false)
    (hbl : env.black_list = Except.ok bl)
    (hrq : env.friend_requests = Except.ok rq) :
    ∃ out : FriendSyncOutcome,
      incr_sync_friends env user_id (some vs) store = Except.ok out ∧
      ∃ evs1, out.events = evs1 ++
        [FriendEvent.on_black_list_changed bl,
         FriendEvent.on_friend_request_list_changed rq] := by
  unfold incr_sync_friends
  rw [hinc]
  simp [hfull, hbl, hrq]

/-- Witness for `c5_black_list_refresh_amended` at a concrete incremental
environment. -/
theorem c5_black_list_refresh_amended_witness :
    ∃ out : FriendSyncOutcome,
      incr_sync_friends
          ⟨Except.error (), Except.ok ⟨5, "v5", false, [], [], []⟩,
           Except.ok [], Except.ok ["black-entry"], Except.ok ["request-entry"]⟩
          "me" (some ⟨"local_friends", "me", 3, "v3"⟩) [] = Except.ok out ∧
      ∃ evs1, out.events = evs1 ++
        [FriendEvent.on_black_list_changed ["black-entry"],
         FriendEvent.on_friend_request_list_changed ["request-entry"]] :=
  c5_black_list_refresh_amended
    ⟨Except.error (), Except.ok ⟨5, "v5", false, [], [], []⟩,
     Except.ok [], Except.ok ["black-entry"], Except.ok ["request-entry"]⟩
    "me" ⟨"local_friends", "me", 3, "v3"⟩ [] ⟨5, "v5", false, [], [], []⟩
    ["black-entry"] ["request-entry"] rfl rfl rfl rfl

/-- C9: `revoke_message` returns an error — before any HTTP request —
whenever the local message is absent, has `seq = 0`, or has a status other
than server-received (send-success); conversely (under the data-model
invariant `seq ≥ 0`, seq being 0 until server-assigned), a POST to the
revoke endpoint happens only for a local message with `seq > 0` and
send-success status, and carries exactly `(conversationID, seq, userID)`. -/
theorem c9_revoke_preconditions (user_id conversation_id client_msg_id : String)
    (local_msg : Option LocalChatLog)
    (hinv : ∀ m, local_msg = some m → 0 ≤ m.seq) :
    ((local_msg = none ∨
        (∃ m, local_msg = some m ∧
          (m.seq = 0 ∨ m.status ≠ constant.MSG_STATUS_SEND_SUCCESS))) →
      ∃ e, revoke_message user_id local_msg conversation_id client_msg_id =
        Except.error e) ∧
    (∀ req, revoke_message user_id local_msg conversation_id client_msg_id =
        Except.ok req →
      ∃ m, local_msg = some m ∧ 0 < m.seq ∧
        m.status = constant.MSG_STATUS_SEND_SUCCESS ∧
        req = ⟨conversation_id, m.seq, user_id⟩) := by
  cases local_msg with
  | none => exact ⟨fun _ => ⟨_, rfl⟩, fun req h => by simp [revoke_message] at h⟩
  | some m =>
    have hse : 0 ≤ m.seq := hinv m rfl
    constructor
    · rintro (h | ⟨m', hm', h⟩)
      · exact absurd h (by simp)
      · cases Option.some.inj hm'
        rcases h with h | h
        · exact ⟨"消息尚未同步到服务器，无法撤回: clientMsgID=" ++ client_msg_id,
            by simp [revoke_message, h]⟩
        · by_cases hz : m.seq = 0
          · exact ⟨"消息尚未同步到服务器，无法撤回: clientMsgID=" ++ client_msg_id,
              by simp [revoke_message, hz]⟩
          · exact ⟨"只有发送成功的消息才能撤回", by simp [revoke_message, hz, h]⟩
    · intro req h
      simp only [revoke_message] at h
      split_ifs at h with h1 h2
      all_goals first
      | exact absurd h (fun hh => Except.noConfusion hh)
      | (have h3 : req = ⟨conversation_id, m.seq, user_id⟩ := by
           injection h with h4
           exact h4.symm
         exact ⟨m, rfl, by omega, not_not.mp h2, h3⟩)

/-- A concrete stored chat log row with `seq = 9` and send-success status. -/
def sampleChatLog : LocalChatLog where
  conversation_id := "c1"
  client_msg_id := "m1"
  server_msg_id := "s1"
  send_id := "me"
  recv_id := "peer"
  sender_platform_id := 1
  sender_nickname := ""
  sender_face_url := ""
  session_type := 1
  msg_from := 100
  content_type := constant.TEXT
  content := "hello"
  is_read := false
  status := constant.MSG_STATUS_SEND_SUCCESS
  seq := 9
  send_time := 100
  create_time := 100
  attached_info := ""
  ex := ""
  local_ex := ""
  group_id := ""

/-- Witness for `c9_revoke_preconditions` at a concrete stored message with
`seq = 9` and send-success status. -/
theorem c9_revoke_preconditions_witness :
    ((some sampleChatLog = none ∨
        (∃ m, some sampleChatLog = some m ∧
          (m.seq = 0 ∨ m.status ≠ constant.MSG_STATUS_SEND_SUCCESS))) →
      ∃ e, revoke_message "me" (some sampleChatLog) "c1" "m1" =
        Except.error e) ∧
    (∀ req, revoke_message "me" (some sampleChatLog) "c1" "m1" =
        Except.ok req →
      ∃ m, some sampleChatLog = some m ∧ 0 < m.seq ∧
        m.status = constant.MSG_STATUS_SEND_SUCCESS ∧
        req = ⟨"c1", m.seq, "me"⟩) :=
  c9_revoke_preconditions "me" "c1" "m1" (some sampleChatLog)
    (fun m hm => by cases Option.some.inj hm; decide)

/-- C2 (code bug): `MessageStore::insert_message` cannot upsert anything —
its INSERT statement names 20 columns, including `group_id`, which
`ensure_table` never creates, and supplies only 19 `?` placeholders (for 20
binds), so SQLite rejects the statement and every call returns an error. -/
theorem c2_insert_message_always_rejected :
    sqlite_insert_accepted ensure_table_columns insert_message_columns
      insert_message_placeholder_count = false ∧
    insert_message_columns.contains "group_id" = true ∧
    ensure_table_columns.contains "group_id" = false ∧
    insert_message_columns.length = 20 ∧
    insert_message_placeholder_count = 19 ∧
    insert_message_bind_count = 20 ∧
    ensure_table_columns.length = 19 := by
  refine ⟨by decide, by decide, by decide, by decide, rfl, rfl, by decide⟩

/-- C3 (code bug): both the no-version-row path of
`incr_sync_conversations` and `full_sync` persist a locally invented
version row — version hard-coded to 1 and a fresh UUID as versionID — so in
the seeded fresh-login scenario (server returns version 7, versionID "a")
the persisted version is 1, never the server's 7. -/
theorem c3_version_row_locally_invented (user_id fresh_uuid : String) :
    (no_version_path_version_row user_id fresh_uuid).table_name =
      "local_conversations" ∧
    (no_version_path_version_row user_id fresh_uuid).entity_id = user_id ∧
    (no_version_path_version_row user_id fresh_uuid).version = 1 ∧
    (no_version_path_version_row user_id fresh_uuid).version_id = fresh_uuid ∧
    (full_sync_version_row user_id fresh_uuid).version = 1 ∧
    (full_sync_version_row user_id fresh_uuid).version_id = fresh_uuid ∧
    (no_version_path_version_row user_id fresh_uuid).version ≠ 7 ∧
    (full_sync_version_row user_id fresh_uuid).version ≠ 7 := by
  refine ⟨rfl, rfl, rfl, rfl, rfl, rfl, by simp [no_version_path_version_row],
    by simp [full_sync_version_row]⟩

/-- A concrete `MsgStruct` with no caller-supplied id or timestamps. -/
def sampleMsgStruct : MsgStruct where
  client_msg_id := none
  server_msg_id := none
  create_time := 0
  send_time := 0
  session_type := 0
  send_id := none
  recv_id := none
  msg_from := 100
  content_type := constant.TEXT
  sender_platform_id := 1
  sender_nickname := none
  sender_face_url := none
  group_id := none
  content := some "hi"
  seq := 0
  is_read := false
  status := 1
  attached_info := none
  ex := none

/-- C7 (amended): `send_rich_message` constructs `client_msg_id` as the
login user id concatenated with a nanosecond timestamp and sets
`create_time = now`, but `send_time = 0` (the server assigns it), and takes
`session_type` as a caller argument, deriving `group_id` from it;
`send_message_internal` derives `session_type` from the presence of
`group_id` and, when the caller supplies no `client_msg_id` and no positive
timestamps, defaults `client_msg_id` to `user_id || nanos` and both
`send_time` and `create_time` to `now`. -/
theorem c7_send_construction_amended (user_id recv_id group_id : String)
    (platform_id session_type content_type : Int) (content : String)
    (is_online_only : Bool) (ov : Option (List (String × Bool)))
    (now : Int) (nanos : Nat) (message : MsgStruct)
    (hid : message.client_msg_id = none)
    (hst : message.send_time ≤ 0) (hct : message.create_time ≤ 0) :
    (send_rich_message_msg_data user_id platform_id recv_id session_type
        content_type content is_online_only ov now nanos).client_msg_id =
      user_id ++ toString nanos ∧
    (send_rich_message_msg_data user_id platform_id recv_id session_type
        content_type content is_online_only ov now nanos).create_time = now ∧
    (send_rich_message_msg_data user_id platform_id recv_id session_type
        content_type content is_online_only ov now nanos).send_time = 0 ∧
    (send_rich_message_msg_data user_id platform_id recv_id session_type
        content_type content is_online_only ov now nanos).group_id =
      (if session_type = 2 then recv_id else "") ∧
    (send_message_internal_msg_data user_id platform_id recv_id group_id
        message is_online_only ov now nanos).client_msg_id =
      user_id ++ toString nanos ∧
    (send_message_internal_msg_data user_id platform_id recv_id group_id
        message is_online_only ov now nanos).send_time = now ∧
    (send_message_internal_msg_data user_id platform_id recv_id group_id
        message is_online_only ov now nanos).create_time = now ∧
    (send_message_internal_msg_data user_id platform_id recv_id group_id
        message is_online_only ov now nanos).session_type =
      (if group_id ≠ "" then 2 else 1) := by
  refine ⟨rfl, rfl, rfl, rfl, ?_, ?_, ?_, rfl⟩
  · simp [send_message_internal_msg_data, hid, generate_msg_id]
  · simp only [send_message_internal_msg_data]
    rw [if_neg (by omega)]
  · simp only [send_message_internal_msg_data]
    rw [if_neg (by omega)]

/-- Witness for `c7_send_construction_amended` at concrete arguments. -/
theorem c7_send_construction_amended_witness :
    (send_rich_message_msg_data "u" 1 "peer" 1 constant.TEXT "hi" false none
        1000 42).client_msg_id = "u" ++ toString (42 : Nat) ∧
    (send_rich_message_msg_data "u" 1 "peer" 1 constant.TEXT "hi" false none
        1000 42).create_time = 1000 ∧
    (send_rich_message_msg_data "u" 1 "peer" 1 constant.TEXT "hi" false none
        1000 42).send_time = 0 ∧
    (send_rich_message_msg_data "u" 1 "peer" 1 constant.TEXT "hi" false none
        1000 42).group_id = (if (1 : Int) = 2 then "peer" else "") ∧
    (send_message_internal_msg_data "u" 1 "peer" "g1" sampleMsgStruct false
        none 1000 42).client_msg_id = "u" ++ toString (42 : Nat) ∧
    (send_message_internal_msg_data "u" 1 "peer" "g1" sampleMsgStruct false
        none 1000 42).send_time = 1000 ∧
    (send_message_internal_msg_data "u" 1 "peer" "g1" sampleMsgStruct false
        none 1000 42).create_time = 1000 ∧
    (send_message_internal_msg_data "u" 1 "peer" "g1" sampleMsgStruct false
        none 1000 42).session_type = (if "g1" ≠ "" then 2 else 1) :=
  c7_send_construction_amended "u" "peer" "g1" 1 1 constant.TEXT "hi" false
    none 1000 42 sampleMsgStruct rfl (by decide) (by decide)

/-- C7 counterexample: a message built by the send path (via
`send_rich_message`, which all element-type senders call) at current time
`now = 1000` carries `send_time = 0`, not `now` — refuting "send_time and
create_time both equal to the current time at construction". -/
theorem c7_counterexample :
    (send_rich_message_msg_data "u" 1 "peer" 1 constant.TEXT "hi" false none
        1000 42).send_time = 0 ∧
    (send_rich_message_msg_data "u" 1 "peer" 1 constant.TEXT "hi" false none
        1000 42).create_time = 1000 ∧
    (0 : Int) ≠ 1000 := by
  refine ⟨rfl, rfl, by decide⟩
